import Mathlib

/-!
Verification of the QBDT node-interface contract of twobombs/qrackwin
(`src/include/qbdt_node_interface.hpp`), a quantum binary decision tree
node abstraction.  Complex scales are embedded as pairs of rationals;
exceptions (`throw std::out_of_range`) are embedded as `Except` values
carrying the thrown message.  Only the base interface header is in the
repository snapshot; member bodies that live in `qbdt_node_interface.cpp`
(`isEqual`, `operator==`, `RemoveSeparableAtDepth`) are modelled from the
specification, each marked as such in its doc comment.
-/

namespace Qrack

/-- Complex numbers with rational components, embedding the `complex`
floating-point type of the source (spec §3: `scale` is a finite complex
number, never NaN/Inf). -/
@[ext]
structure Cmplx where
  re : ℚ
  im : ℚ
deriving DecidableEq, Repr

instance : Zero Cmplx := ⟨⟨0, 0⟩⟩

instance : One Cmplx := ⟨⟨1, 0⟩⟩

instance : Add Cmplx := ⟨fun a b => ⟨a.re + b.re, a.im + b.im⟩⟩

instance : Neg Cmplx := ⟨fun a => ⟨-a.re, -a.im⟩⟩

instance : Sub Cmplx := ⟨fun a b => ⟨a.re - b.re, a.im - b.im⟩⟩

instance : Mul Cmplx := ⟨fun a b => ⟨a.re * b.re - a.im * b.im, a.re * b.im + a.im * b.re⟩⟩

theorem Cmplx.zero_def : (0 : Cmplx) = ⟨0, 0⟩ := rfl

theorem Cmplx.one_def : (1 : Cmplx) = ⟨1, 0⟩ := rfl

theorem Cmplx.add_def (a b : Cmplx) : a + b = ⟨a.re + b.re, a.im + b.im⟩ := rfl

theorem Cmplx.neg_def (a : Cmplx) : -a = ⟨-a.re, -a.im⟩ := rfl

theorem Cmplx.sub_def (a b : Cmplx) : a - b = ⟨a.re - b.re, a.im - b.im⟩ := rfl

theorem Cmplx.mul_def (a b : Cmplx) :
    a * b = ⟨a.re * b.re - a.im * b.im, a.re * b.im + a.im * b.re⟩ := rfl

instance : CommRing Cmplx where
  add_assoc a b c := by ext <;> simp [Cmplx.add_def] <;> ring
  zero_add a := by ext <;> simp [Cmplx.add_def, Cmplx.zero_def]
  add_zero a := by ext <;> simp [Cmplx.add_def, Cmplx.zero_def]
  add_comm a b := by ext <;> simp [Cmplx.add_def] <;> ring
  mul_assoc a b c := by ext <;> simp [Cmplx.mul_def] <;> ring
  one_mul a := by ext <;> simp [Cmplx.mul_def, Cmplx.one_def]
  mul_one a := by ext <;> simp [Cmplx.mul_def, Cmplx.one_def]
  left_distrib a b c := by ext <;> simp [Cmplx.mul_def, Cmplx.add_def] <;> ring
  right_distrib a b c := by ext <;> simp [Cmplx.mul_def, Cmplx.add_def] <;> ring
  mul_comm a b := by ext <;> simp [Cmplx.mul_def] <;> ring
  neg_add_cancel a := by ext <;> simp [Cmplx.add_def, Cmplx.neg_def, Cmplx.zero_def]
  sub_eq_add_neg a b := by ext <;> simp [Cmplx.sub_def, Cmplx.add_def, Cmplx.neg_def] <;> ring
  zero_mul a := by ext <;> simp [Cmplx.mul_def, Cmplx.zero_def]
  mul_zero a := by ext <;> simp [Cmplx.mul_def, Cmplx.zero_def]
  nsmul := nsmulRec
  zsmul := zsmulRec

/-- The source's `ZERO_CMPLX` constant. -/
def ZERO_CMPLX : Cmplx := 0

/-- The source's `ONE_CMPLX` constant. -/
def ONE_CMPLX : Cmplx := 1

/-- Squared magnitude of a complex value, embedding `norm(z)` of the
source's numerics (the C++ `std::norm`, which is `|z|^2`). -/
def normSq (a : Cmplx) : ℚ := a.re * a.re + a.im * a.im

/-- Modelled from the spec: the numerical tolerance used by equality
comparison ("scale matches (within tolerance)", §4.3).  The concrete
constant (`FP_NORM_EPSILON`) lives in `common/qrack_functions.hpp`, which
is not under `src/`; any fixed nonnegative rational serves.  We use
`2 ^ -25`. -/
def FP_NORM_EPSILON : ℚ := 1 / 33554432

/-- A (possibly null) shared reference to a QBDT node: the source's
`QBdtNodeInterfacePtr` (`std::shared_ptr<QBdtNodeInterface>`), where a
node carries a complex `scale` and two nullable branch pointers
`branches[0]`, `branches[1]` (`qbdt_node_interface.hpp` lines 65-66).
The per-node mutex of the parallel build guards pointer swaps only and
has no sequential observable effect, so it is not part of the state. -/
inductive QBdtNodeInterfacePtr where
  | null : QBdtNodeInterfacePtr
  | node (scale : Cmplx) (branch0 branch1 : QBdtNodeInterfacePtr) : QBdtNodeInterfacePtr
deriving DecidableEq, Repr

namespace QBdtNodeInterfacePtr

/-- The node's `scale` field, when the reference is non-null. -/
def getScale : QBdtNodeInterfacePtr → Option Cmplx
  | null => none
  | node s _ _ => some s

/-- The node's `branches[0]` slot, when the reference is non-null. -/
def getBranch0 : QBdtNodeInterfacePtr → Option QBdtNodeInterfacePtr
  | null => none
  | node _ b0 _ => some b0

/-- The node's `branches[1]` slot, when the reference is non-null. -/
def getBranch1 : QBdtNodeInterfacePtr → Option QBdtNodeInterfacePtr
  | null => none
  | node _ _ b1 => some b1

/-- Whether the reference is empty (a null `shared_ptr`). -/
def isNull : QBdtNodeInterfacePtr → Bool
  | null => true
  | node _ _ _ => false

end QBdtNodeInterfacePtr

export QBdtNodeInterfacePtr (null node)

/-- The default constructor `QBdtNodeInterface()` (lines 71-76): scale
`ONE_CMPLX`, both branches null. -/
def QBdtNodeInterface_new : QBdtNodeInterfacePtr := node ONE_CMPLX null null

/-- The one-argument constructor `QBdtNodeInterface(const complex& scl)`
(lines 78-83): given scale, both branches null. -/
def QBdtNodeInterface_ofScale (scl : Cmplx) : QBdtNodeInterfacePtr := node scl null null

/-- The two-argument constructor
`QBdtNodeInterface(const complex& scl, QBdtNodeInterfacePtr* b)`
(lines 85-90): stores `scl` and the two given branch pointers, unchecked. -/
def QBdtNodeInterface_ofScaleBranches (scl : Cmplx) (b0 b1 : QBdtNodeInterfacePtr) :
    QBdtNodeInterfacePtr := node scl b0 b1

/-- Errors thrown by the interface (`throw std::out_of_range(msg)`),
carrying the thrown message. -/
inductive QrackError where
  | outOfRange (msg : String)
deriving DecidableEq, Repr

/-- A 2x2 complex matrix, row-major, embedding the `const complex* mtrx`
arguments of the non-SIMD build (`ENABLE_COMPLEX_X2` off). -/
structure Mtrx2 where
  m00 : Cmplx
  m01 : Cmplx
  m10 : Cmplx
  m11 : Cmplx
deriving DecidableEq, Repr

/-- The message thrown by the base `PushStateVector` (lines 61-62). -/
def pushStateVectorMsg : String :=
  "QBdtNodeInterface::PushStateVector() not implemented! (You probably set QRACK_QBDT_SEPARABILITY_THRESHOLD too high.)"

/-- The message thrown by the base `InsertAtDepth` (lines 103-104). -/
def insertAtDepthMsg : String :=
  "QBdtNodeInterface::InsertAtDepth() not implemented! (You probably set QRACK_QBDT_SEPARABILITY_THRESHOLD too high.)"

/-- Modelled from the spec: the unsupported-for-variant message of the
base `RemoveSeparableAtDepth` (body not under `src/`). -/
def removeSeparableAtDepthMsg : String :=
  "QBdtNodeInterface::RemoveSeparableAtDepth() not implemented!"

/-- The message thrown by the base `ShallowClone` (lines 144-145). -/
def shallowCloneMsg : String :=
  "QBdtNodeInterface::ShallowClone() not implemented! (You probably set QRACK_QBDT_SEPARABILITY_THRESHOLD too high.)"

/-- The message thrown by the base `PopStateVector` (lines 158-159). -/
def popStateVectorMsg : String :=
  "QBdtNodeInterface::PopStateVector() not implemented! (You probably set QRACK_QBDT_SEPARABILITY_THRESHOLD too high.)"

/-- The message thrown by the base `Branch` (lines 172-173). -/
def branchMsg : String :=
  "QBdtNodeInterface::Branch() not implemented! (You probably set QRACK_QBDT_SEPARABILITY_THRESHOLD too high.)"

/-- The message thrown by the base `Prune` (lines 186-187). -/
def pruneMsg : String :=
  "QBdtNodeInterface::Prune() not implemented! (You probably set QRACK_QBDT_SEPARABILITY_THRESHOLD too high.)"

/-- The message thrown by the base `Normalize` (lines 196-197). -/
def normalizeMsg : String :=
  "QBdtNodeInterface::Normalize() not implemented! (You probably set QRACK_QBDT_SEPARABILITY_THRESHOLD too high.)"

/-- The message thrown by the base `Apply2x2` (lines 211-212). -/
def apply2x2Msg : String :=
  "QBdtNodeInterface::Apply2x2() not implemented! (You probably set QRACK_QBDT_SEPARABILITY_THRESHOLD too high.)"

/-- The message thrown by the base `PushSpecial` (lines 222-223); note it
differs from all the others. -/
def pushSpecialMsg : String :=
  "QBdtNodeInterface::PushSpecial() not implemented! (You probably called PushStateVector() past terminal depth.)"

/-- `QBdtNodeInterface::SetZero()` (lines 114-134): sets `scale = ZERO_CMPLX`
and detaches both branch slots (the parallel build does each detach under
the child's lock; the resulting state is the same).  Arguments are the
receiver node's prior fields; the result is its updated state. -/
def SetZero (scale : Cmplx) (b0 b1 : QBdtNodeInterfacePtr) : QBdtNodeInterfacePtr :=
  node ZERO_CMPLX null null

/-- `QBdtNodeInterface::PushStateVector(mtrx, b0, b1, depth)` (lines 56-63,
non-SIMD non-parallel build; the other builds share the same body): throws
unconditionally. -/
def PushStateVector (this : QBdtNodeInterfacePtr) (mtrx : Mtrx2)
    (b0 b1 : QBdtNodeInterfacePtr) (depth : Nat) : Except QrackError Unit :=
  .error (.outOfRange pushStateVectorMsg)

/-- `QBdtNodeInterface::InsertAtDepth(b, depth, size)` (lines 98-105):
throws unconditionally. -/
def InsertAtDepth (this : QBdtNodeInterfacePtr) (b : QBdtNodeInterfacePtr)
    (depth : Nat) (size : Nat) : Except QrackError Unit :=
  .error (.outOfRange insertAtDepthMsg)

/-- Modelled from the spec: `QBdtNodeInterface::RemoveSeparableAtDepth` is
only declared in the header (lines 108-111); its body lives in
`qbdt_node_interface.cpp`, which is not under `src/`.  Spec §4.4 and §7
say a structural operation invoked on a node variant that does not
implement it must fail with a distinct unsupported-for-variant condition,
never silently no-op. -/
def RemoveSeparableAtDepth (this : QBdtNodeInterfacePtr) (depth : Nat) (size : Nat) :
    Except QrackError QBdtNodeInterfacePtr :=
  .error (.outOfRange removeSeparableAtDepthMsg)

/-- `QBdtNodeInterface::ShallowClone()` (lines 142-146): throws
unconditionally. -/
def ShallowClone (this : QBdtNodeInterfacePtr) : Except QrackError QBdtNodeInterfacePtr :=
  .error (.outOfRange shallowCloneMsg)

/-- `QBdtNodeInterface::PopStateVector(depth)` (lines 151-160): returns
silently when `depth == 0`, otherwise throws.  On the `ok` path the
receiver is unchanged, so it is returned as the new state. -/
def PopStateVector (this : QBdtNodeInterfacePtr) (depth : Nat) :
    Except QrackError QBdtNodeInterfacePtr :=
  if depth = 0 then .ok this
  else .error (.outOfRange popStateVectorMsg)

/-- `QBdtNodeInterface::Branch(depth)` (lines 165-174): returns silently
when `depth == 0`, otherwise throws. -/
def Branch (this : QBdtNodeInterfacePtr) (depth : Nat) :
    Except QrackError QBdtNodeInterfacePtr :=
  if depth = 0 then .ok this
  else .error (.outOfRange branchMsg)

/-- `QBdtNodeInterface::Prune(depth)` (lines 179-188): returns silently
when `depth == 0`, otherwise throws. -/
def Prune (this : QBdtNodeInterfacePtr) (depth : Nat) :
    Except QrackError QBdtNodeInterfacePtr :=
  if depth = 0 then .ok this
  else .error (.outOfRange pruneMsg)

/-- `QBdtNodeInterface::Normalize(depth)` (lines 190-198): returns silently
when `depth == 0`, otherwise throws. -/
def Normalize (this : QBdtNodeInterfacePtr) (depth : Nat) :
    Except QrackError QBdtNodeInterfacePtr :=
  if depth = 0 then .ok this
  else .error (.outOfRange normalizeMsg)

/-- `QBdtNodeInterface::Apply2x2(mtrx, depth)` (lines 204-213): returns
silently when `depth == 0`, otherwise throws. -/
def Apply2x2 (this : QBdtNodeInterfacePtr) (mtrx : Mtrx2) (depth : Nat) :
    Except QrackError QBdtNodeInterfacePtr :=
  if depth = 0 then .ok this
  else .error (.outOfRange apply2x2Msg)

/-- `QBdtNodeInterface::PushSpecial(mtrx, b1)` (lines 219-224): throws
unconditionally, with a message distinct from the other operations. -/
def PushSpecial (this : QBdtNodeInterfacePtr) (mtrx : Mtrx2)
    (b1 : QBdtNodeInterfacePtr) : Except QrackError Unit :=
  .error (.outOfRange pushSpecialMsg)

/-- Modelled from the spec: `QBdtNodeInterface::isEqual` is only declared
in the header (line 136); its body lives in `qbdt_node_interface.cpp`,
which is not under `src/`.  Spec §4.3: true iff `scale` matches within
tolerance and both branch pairs are recursively equal, or both empty;
an empty and a non-empty reference are unequal. -/
def isEqual : QBdtNodeInterfacePtr → QBdtNodeInterfacePtr → Bool
  | null, null => true
  | null, node _ _ _ => false
  | node _ _ _, null => false
  | node s0 l0 r0, node s1 l1 r1 =>
    decide (normSq (s0 - s1) ≤ FP_NORM_EPSILON) && isEqual l0 l1 && isEqual r0 r1

/-- Modelled from the spec: `operator==` over node references is only
declared in the header (line 227); its body lives in
`qbdt_node_interface.cpp`, which is not under `src/`.  Spec §4.3:
delegates to `isEqual`; two empty references are equal; an empty and a
non-empty reference are unequal. -/
def operatorEq (lhs rhs : QBdtNodeInterfacePtr) : Bool := isEqual lhs rhs

/-- Modelled from the spec: `operator!=` (header line 228), the negation
of `operator==`. -/
def operatorNe (lhs rhs : QBdtNodeInterfacePtr) : Bool := !operatorEq lhs rhs

/-- Node-local and hereditary zero-closure (spec invariant I1): on every
reachable node, `scale == 0` implies both branch slots are empty. -/
def zeroClosed : QBdtNodeInterfacePtr → Bool
  | null => true
  | node s b0 b1 =>
    (!(s == ZERO_CMPLX) || (b0.isNull && b1.isNull)) && zeroClosed b0 && zeroClosed b1

/-- Basis-string amplitude of a subtree (spec §3: the amplitude of a
basis state is the product of `scale` along the root-to-leaf path;
an absent branch means a zero-amplitude subtree). -/
def amplitude : QBdtNodeInterfacePtr → List Bool → Cmplx
  | null, _ => 0
  | node s _ _, [] => s
  | node s b0 b1, bit :: rest => s * amplitude (if bit then b1 else b0) rest

/-- Row-major 2x2 matrix multiplication. -/
def mmul (a b : Mtrx2) : Mtrx2 :=
  ⟨a.m00 * b.m00 + a.m01 * b.m10, a.m00 * b.m01 + a.m01 * b.m11,
    a.m10 * b.m00 + a.m11 * b.m10, a.m10 * b.m01 + a.m11 * b.m11⟩

/-- The 2x2 identity matrix. -/
def idMtrx : Mtrx2 := ⟨1, 0, 0, 1⟩

/-- Complex conjugate. -/
def conjC (a : Cmplx) : Cmplx := ⟨a.re, -a.im⟩

/-- Conjugate transpose of a 2x2 matrix; for a unitary matrix this is its
inverse. -/
def conjTrans (a : Mtrx2) : Mtrx2 := ⟨conjC a.m00, conjC a.m10, conjC a.m01, conjC a.m11⟩

/-- Unitarity of a 2x2 matrix: the conjugate transpose is a left
inverse. -/
def isUnitary (a : Mtrx2) : Prop := mmul (conjTrans a) a = idMtrx

instance (a : Mtrx2) : Decidable (isUnitary a) := by
  unfold isUnitary; infer_instance

/-- Modelled from the spec: the amplitude-level effect of
`QBdtNode::PushStateVector` (the BranchNode implementation lives in
`qbdt_node.cpp`, not under `src/`).  Spec §4.2: the operation mixes the
`branches[0]` and `branches[1]` scale contributions per the 2x2 matrix —
it is "the mechanism by which a gate is applied to a compressed state" —
so on the amplitude functions of the two branch subtrees it acts as the
matrix applied to each aligned pair of basis-string amplitudes. -/
def pushStateVectorAmps (m : Mtrx2) (a0 a1 : List Bool → Cmplx) :
    (List Bool → Cmplx) × (List Bool → Cmplx) :=
  (fun s => m.m00 * a0 s + m.m01 * a1 s, fun s => m.m10 * a0 s + m.m11 * a1 s)

/-- The squared magnitude of zero is zero. -/
theorem normSq_zero : normSq 0 = 0 := by simp [normSq, Cmplx.zero_def]

/-- The tolerance constant is nonnegative. -/
theorem FP_NORM_EPSILON_nonneg : 0 ≤ FP_NORM_EPSILON := by
  unfold FP_NORM_EPSILON; norm_num

/-- Squared magnitude is insensitive to the order of subtraction. -/
theorem normSq_sub_comm (a b : Cmplx) : normSq (a - b) = normSq (b - a) := by
  simp only [normSq, Cmplx.sub_def]
  ring

/-- Helper: `isEqual` is reflexive. -/
theorem isEqual_refl_aux (n : QBdtNodeInterfacePtr) : isEqual n n = true := by
  induction n with
  | null => rfl
  | node s b0 b1 ih0 ih1 =>
    have hs : s - s = 0 := sub_self s
    simp [isEqual, ih0, ih1, hs, normSq_zero, FP_NORM_EPSILON_nonneg]

/-- Helper: `isEqual` is symmetric. -/
theorem isEqual_symm_aux (a b : QBdtNodeInterfacePtr) : isEqual a b = isEqual b a := by
  induction a generalizing b with
  | null => cases b <;> rfl
  | node s l r ihl ihr =>
    cases b with
    | null => rfl
    | node s2 l2 r2 =>
      have hs := normSq_sub_comm s s2
      simp [isEqual, hs, ihl, ihr]

/-- Helper: when `a` is a left inverse of `m`, pushing `m` and then `a`
through a pair of amplitude functions restores both, exactly. -/
theorem pushAmps_leftInverse (a m : Mtrx2) (h : mmul a m = idMtrx)
    (a0 a1 : List Bool → Cmplx) (s : List Bool) :
    (pushStateVectorAmps a (pushStateVectorAmps m a0 a1).1 (pushStateVectorAmps m a0 a1).2).1 s
      = a0 s ∧
    (pushStateVectorAmps a (pushStateVectorAmps m a0 a1).1 (pushStateVectorAmps m a0 a1).2).2 s
      = a1 s := by
  have h00 := congrArg Mtrx2.m00 h
  have h01 := congrArg Mtrx2.m01 h
  have h10 := congrArg Mtrx2.m10 h
  have h11 := congrArg Mtrx2.m11 h
  simp only [mmul, idMtrx] at h00 h01 h10 h11
  constructor
  · show a.m00 * (m.m00 * a0 s + m.m01 * a1 s) + a.m01 * (m.m10 * a0 s + m.m11 * a1 s) = a0 s
    linear_combination a0 s * h00 + a1 s * h01
  · show a.m10 * (m.m00 * a0 s + m.m01 * a1 s) + a.m11 * (m.m10 * a0 s + m.m11 * a1 s) = a1 s
    linear_combination a0 s * h10 + a1 s * h11

/-- The Pauli X gate, a concrete unitary used as a witness input. -/
def xMtrx : Mtrx2 := ⟨0, 1, 1, 0⟩

/-- The Pauli X gate is unitary. -/
theorem xMtrx_unitary : isUnitary xMtrx := by
  show mmul (conjTrans xMtrx) xMtrx = idMtrx
  simp [mmul, conjTrans, conjC, xMtrx, idMtrx, Cmplx.mul_def, Cmplx.add_def,
    Cmplx.zero_def, Cmplx.one_def, Mtrx2.mk.injEq, Cmplx.mk.injEq]

/-- C1: for every node, after `SetZero()` the node's scale equals 0 and
both branch slots are empty, regardless of the prior scale or branch
contents. -/
theorem setZero_zeroes_scale_and_branches (scale : Cmplx) (b0 b1 : QBdtNodeInterfacePtr) :
    (SetZero scale b0 b1).getScale = some ZERO_CMPLX ∧
    (SetZero scale b0 b1).getBranch0 = some null ∧
    (SetZero scale b0 b1).getBranch1 = some null :=
  ⟨rfl, rfl, rfl⟩

/-- C2 counterexample: on the base interface, `Branch` invoked with depth
0 returns successfully — a silent no-op — instead of raising the
unsupported-operation error, refuting "for all argument values". -/
theorem branch_depth0_silently_returns :
    Branch QBdtNodeInterface_new 0 = .ok QBdtNodeInterface_new := rfl

/-- C2 (amended): on the base interface, `PushStateVector`,
`InsertAtDepth`, `RemoveSeparableAtDepth`, `ShallowClone` and
`PushSpecial` raise their distinct unsupported-operation errors for all
argument values; `Branch`, `Prune`, `Normalize`, `Apply2x2` and
`PopStateVector` raise theirs for every nonzero depth but silently no-op
at depth 0. -/
theorem base_variant_ops_fail (n b b0 b1 : QBdtNodeInterfacePtr) (mtrx : Mtrx2)
    (depth size d : Nat) (hd : d ≠ 0) :
    PushStateVector n mtrx b0 b1 depth = .error (.outOfRange pushStateVectorMsg) ∧
    InsertAtDepth n b depth size = .error (.outOfRange insertAtDepthMsg) ∧
    RemoveSeparableAtDepth n depth size = .error (.outOfRange removeSeparableAtDepthMsg) ∧
    ShallowClone n = .error (.outOfRange shallowCloneMsg) ∧
    PushSpecial n mtrx b1 = .error (.outOfRange pushSpecialMsg) ∧
    Branch n d = .error (.outOfRange branchMsg) ∧
    Prune n d = .error (.outOfRange pruneMsg) ∧
    Normalize n d = .error (.outOfRange normalizeMsg) ∧
    Apply2x2 n mtrx d = .error (.outOfRange apply2x2Msg) ∧
    PopStateVector n d = .error (.outOfRange popStateVectorMsg) ∧
    Branch n 0 = .ok n ∧
    Prune n 0 = .ok n ∧
    Normalize n 0 = .ok n ∧
    Apply2x2 n mtrx 0 = .ok n ∧
    PopStateVector n 0 = .ok n := by
  refine ⟨rfl, rfl, rfl, rfl, rfl, ?_, ?_, ?_, ?_, ?_, rfl, rfl, rfl, rfl, rfl⟩ <;>
    simp [Branch, Prune, Normalize, Apply2x2, PopStateVector, hd]

/-- C2 witness: the amended statement at concrete arguments (depth 1). -/
theorem base_variant_ops_fail_witness :
    (1 : Nat) ≠ 0 ∧
    (PushStateVector QBdtNodeInterface_new idMtrx null null 1
        = .error (.outOfRange pushStateVectorMsg) ∧
      InsertAtDepth QBdtNodeInterface_new null 1 1 = .error (.outOfRange insertAtDepthMsg) ∧
      RemoveSeparableAtDepth QBdtNodeInterface_new 1 1
        = .error (.outOfRange removeSeparableAtDepthMsg) ∧
      ShallowClone QBdtNodeInterface_new = .error (.outOfRange shallowCloneMsg) ∧
      PushSpecial QBdtNodeInterface_new idMtrx null = .error (.outOfRange pushSpecialMsg) ∧
      Branch QBdtNodeInterface_new 1 = .error (.outOfRange branchMsg) ∧
      Prune QBdtNodeInterface_new 1 = .error (.outOfRange pruneMsg) ∧
      Normalize QBdtNodeInterface_new 1 = .error (.outOfRange normalizeMsg) ∧
      Apply2x2 QBdtNodeInterface_new idMtrx 1 = .error (.outOfRange apply2x2Msg) ∧
      PopStateVector QBdtNodeInterface_new 1 = .error (.outOfRange popStateVectorMsg) ∧
      Branch QBdtNodeInterface_new 0 = .ok QBdtNodeInterface_new ∧
      Prune QBdtNodeInterface_new 0 = .ok QBdtNodeInterface_new ∧
      Normalize QBdtNodeInterface_new 0 = .ok QBdtNodeInterface_new ∧
      Apply2x2 QBdtNodeInterface_new idMtrx 0 = .ok QBdtNodeInterface_new ∧
      PopStateVector QBdtNodeInterface_new 0 = .ok QBdtNodeInterface_new) :=
  ⟨by decide,
    base_variant_ops_fail QBdtNodeInterface_new null null null idMtrx 1 1 1 (by decide)⟩

/-- C3 counterexample: on the base interface (the cited code), `Normalize`
at depth 1 raises the unsupported-operation error, refuting "for every
node and every depth argument, Normalize completes without raising any
error". -/
theorem normalize_raises_at_depth_one :
    Normalize QBdtNodeInterface_new 1 = .error (.outOfRange normalizeMsg) := rfl

/-- C3 (amended): on the base interface, `Normalize` completes without
error (leaving the node unchanged) only at depth 0; at every nonzero
depth it raises the unsupported-for-variant error.  The no-failure
guarantee is for node variants that implement `Normalize`. -/
theorem normalize_base_noop_or_fail (n : QBdtNodeInterfacePtr) (d : Nat) (hd : d ≠ 0) :
    Normalize n 0 = .ok n ∧ Normalize n d = .error (.outOfRange normalizeMsg) := by
  refine ⟨rfl, ?_⟩
  simp [Normalize, hd]

/-- C3 witness: the amended statement at a concrete node and depth 1. -/
theorem normalize_base_noop_or_fail_witness :
    (1 : Nat) ≠ 0 ∧
    (Normalize QBdtNodeInterface_new 0 = .ok QBdtNodeInterface_new ∧
      Normalize QBdtNodeInterface_new 1 = .error (.outOfRange normalizeMsg)) :=
  ⟨by decide, normalize_base_noop_or_fail QBdtNodeInterface_new 1 (by decide)⟩

/-- C4: for every node, `Branch` with depth 0 and `PopStateVector` with
depth 0 return without error and leave the node (scale and both branch
slots) unchanged. -/
theorem branch_pop_depth0_noop (n : QBdtNodeInterfacePtr) :
    Branch n 0 = .ok n ∧ PopStateVector n 0 = .ok n := ⟨rfl, rfl⟩

/-- C5: `operator==` and `operator!=` over node references delegate to
`isEqual`; two empty references compare equal, and an empty and a
non-empty reference compare unequal regardless of the non-empty node's
scale or branches. -/
theorem operatorEq_delegates_and_null_cases (l r b0 b1 : QBdtNodeInterfacePtr) (s : Cmplx) :
    operatorEq l r = isEqual l r ∧
    operatorNe l r = !isEqual l r ∧
    operatorEq null null = true ∧
    operatorEq null (node s b0 b1) = false ∧
    operatorEq (node s b0 b1) null = false ∧
    operatorNe null null = false ∧
    operatorNe null (node s b0 b1) = true ∧
    operatorNe (node s b0 b1) null = true :=
  ⟨rfl, rfl, rfl, rfl, rfl, rfl, rfl, rfl⟩

/-- C6 counterexample: the `(scale, branches)` constructor with a zero
scale and a non-null branch produces a node violating zero-closure (I1),
refuting "holds after every node construction ... including construction
via the (scale, branches) constructor". -/
theorem ctor_scale_branches_breaks_zero_closure :
    zeroClosed (QBdtNodeInterface_ofScaleBranches ZERO_CMPLX QBdtNodeInterface_new null)
      = false := by decide

/-- C6 (amended): `SetZero` and the default and scale-only constructors
establish zero-closure (I1); the `(scale, branches)` constructor stores
its arguments unchecked, so its result satisfies I1 only when the
arguments already do (both branches zero-closed, and both null when the
given scale is zero). -/
theorem zero_closure_after_setZero_and_ctors (scale scl sc2 : Cmplx)
    (b0 b1 c0 c1 : QBdtNodeInterfacePtr)
    (h0 : zeroClosed c0 = true) (h1 : zeroClosed c1 = true)
    (hz : sc2 = ZERO_CMPLX → c0 = null ∧ c1 = null) :
    zeroClosed (SetZero scale b0 b1) = true ∧
    zeroClosed QBdtNodeInterface_new = true ∧
    zeroClosed (QBdtNodeInterface_ofScale scl) = true ∧
    zeroClosed (QBdtNodeInterface_ofScaleBranches sc2 c0 c1) = true := by
  refine ⟨by simp only [SetZero]; decide, by decide, ?_, ?_⟩
  · simp [zeroClosed, QBdtNodeInterface_ofScale, QBdtNodeInterfacePtr.isNull]
  · by_cases hs : sc2 = ZERO_CMPLX
    · obtain ⟨e0, e1⟩ := hz hs
      subst e0
      subst e1
      simp [zeroClosed, QBdtNodeInterface_ofScaleBranches, QBdtNodeInterfacePtr.isNull]
    · simp [zeroClosed, QBdtNodeInterface_ofScaleBranches, h0, h1, beq_iff_eq, hs]

/-- C6 witness: the amended statement at concrete arguments, including a
zero scale with null branches for the `(scale, branches)` constructor. -/
theorem zero_closure_after_setZero_and_ctors_witness :
    zeroClosed null = true ∧
    (ZERO_CMPLX = ZERO_CMPLX → null = (null : QBdtNodeInterfacePtr) ∧
      null = (null : QBdtNodeInterfacePtr)) ∧
    (zeroClosed (SetZero ONE_CMPLX null null) = true ∧
      zeroClosed QBdtNodeInterface_new = true ∧
      zeroClosed (QBdtNodeInterface_ofScale ONE_CMPLX) = true ∧
      zeroClosed (QBdtNodeInterface_ofScaleBranches ZERO_CMPLX null null) = true) :=
  ⟨by decide, fun _ => ⟨rfl, rfl⟩,
    zero_closure_after_setZero_and_ctors ONE_CMPLX ONE_CMPLX ZERO_CMPLX null null null null
      (by decide) (by decide) (fun _ => ⟨rfl, rfl⟩)⟩

/-- C7: on the base interface, `PushSpecial` fails with its distinct
error for every matrix and branch argument, and never succeeds. -/
theorem pushSpecial_always_fails (n : QBdtNodeInterfacePtr) (mtrx : Mtrx2)
    (b1 : QBdtNodeInterfacePtr) :
    PushSpecial n mtrx b1 = .error (.outOfRange pushSpecialMsg) ∧
    ∀ u : Unit, PushSpecial n mtrx b1 ≠ .ok u :=
  ⟨rfl, fun _ h => Except.noConfusion h⟩

/-- C8: `isEqual` is reflexive and symmetric. -/
theorem isEqual_refl_and_symm (n a b : QBdtNodeInterfacePtr) :
    isEqual n n = true ∧ isEqual a b = isEqual b a :=
  ⟨isEqual_refl_aux n, isEqual_symm_aux a b⟩

/-- C9: push round-trip — for every pair of branch-subtree amplitude
functions and every unitary 2x2 matrix `m`, pushing `m` and then its
inverse (the conjugate transpose) reproduces the original amplitude of
every basis string within tolerance. -/
theorem pushStateVector_unitary_roundtrip (m : Mtrx2) (hu : isUnitary m)
    (a0 a1 : List Bool → Cmplx) (s : List Bool) :
    normSq ((pushStateVectorAmps (conjTrans m)
        (pushStateVectorAmps m a0 a1).1 (pushStateVectorAmps m a0 a1).2).1 s - a0 s)
      ≤ FP_NORM_EPSILON ∧
    normSq ((pushStateVectorAmps (conjTrans m)
        (pushStateVectorAmps m a0 a1).1 (pushStateVectorAmps m a0 a1).2).2 s - a1 s)
      ≤ FP_NORM_EPSILON := by
  obtain ⟨e0, e1⟩ := pushAmps_leftInverse (conjTrans m) m hu a0 a1 s
  rw [e0, e1]
  simp [sub_self, normSq_zero, FP_NORM_EPSILON_nonneg]

/-- C9 witness: the round-trip at the Pauli X gate, constant amplitude
functions, and the empty basis string. -/
theorem pushStateVector_unitary_roundtrip_witness :
    isUnitary xMtrx ∧
    (normSq ((pushStateVectorAmps (conjTrans xMtrx)
          (pushStateVectorAmps xMtrx (fun _ => 1) (fun _ => 0)).1
          (pushStateVectorAmps xMtrx (fun _ => 1) (fun _ => 0)).2).1 []
        - (fun _ : List Bool => (1 : Cmplx)) []) ≤ FP_NORM_EPSILON ∧
      normSq ((pushStateVectorAmps (conjTrans xMtrx)
          (pushStateVectorAmps xMtrx (fun _ => 1) (fun _ => 0)).1
          (pushStateVectorAmps xMtrx (fun _ => 1) (fun _ => 0)).2).2 []
        - (fun _ : List Bool => (0 : Cmplx)) []) ≤ FP_NORM_EPSILON) :=
  ⟨xMtrx_unitary,
    pushStateVector_unitary_roundtrip xMtrx xMtrx_unitary (fun _ => 1) (fun _ => 0) []⟩

/-- C10: on the base interface, `PushStateVector` raises its error even
at depth 0, unlike `Branch`, `Prune`, `Normalize`, `Apply2x2` and
`PopStateVector`, which all return silently at depth 0. -/
theorem pushStateVector_fails_even_at_depth0 (n b0 b1 : QBdtNodeInterfacePtr) (mtrx : Mtrx2) :
    PushStateVector n mtrx b0 b1 0 = .error (.outOfRange pushStateVectorMsg) ∧
    Branch n 0 = .ok n ∧
    Prune n 0 = .ok n ∧
    Normalize n 0 = .ok n ∧
    Apply2x2 n mtrx 0 = .ok n ∧
    PopStateVector n 0 = .ok n :=
  ⟨rfl, rfl, rfl, rfl, rfl, rfl⟩

end Qrack
